import Mathlib

/-
  Verification development for the durable multi-step workflow orchestrator
  repository (org-validation, teacher-verification and contract-management
  workflows plus their HTTP approval routes).

  The TypeScript sources are shallowly embedded: pure step functions become
  Lean functions over explicit data structures; JavaScript truthiness of
  optional string and number fields is modelled explicitly; Promise.all and
  Promise.race are modelled over completion times; the durable replay runtime
  of the external workflow package is modelled from the specification.
-/

namespace Spec2Proof

/-! ## JavaScript-style helpers

JS coerces values to booleans: an absent field, the empty string and the
number zero are falsy.  The sources use the pattern a?.x || a?.y || d
pervasively, which picks the first truthy field and otherwise the default. -/

/-- Truthiness of an optional JS string: present and non-empty. -/
def strTruthy : Option String → Bool
  | none => false
  | some s => !(s = "")

/-- Truthiness of an optional JS number: present and non-zero. -/
def qTruthy : Option ℚ → Bool
  | none => false
  | some q => !(q = 0)

/-- Model of a || b || d on optional strings, as in legalName resolution. -/
def jsOrStr (a b : Option String) (d : String) : String :=
  if strTruthy a then a.getD "" else if strTruthy b then b.getD "" else d

/-- Model of a || d on one optional string. -/
def jsOrStr1 (a : Option String) (d : String) : String :=
  if strTruthy a then a.getD "" else d

/-- Model of a || b || 0 on optional numbers, as in trustScore resolution. -/
def jsOrQ (a b : Option ℚ) : ℚ :=
  if qTruthy a then a.getD 0 else if qTruthy b then b.getD 0 else 0

/-- Decides whether the list pat occurs as a prefix of the list s. -/
def listStartsWith : List Char → List Char → Bool
  | [], _ => true
  | _ :: _, [] => false
  | p :: ps, c :: cs => p = c && listStartsWith ps cs

/-- Decides whether pat occurs as a contiguous sublist of s
(model of the JS String.includes method). -/
def listContainsSub (pat : List Char) : List Char → Bool
  | [] => listStartsWith pat []
  | c :: cs => listStartsWith pat (c :: cs) || listContainsSub pat cs

/-- Model of the JS String.includes method. -/
def strIncludes (s pat : String) : Bool :=
  listContainsSub pat.toList s.toList

/-! ## Organization validation: worker result shapes and consolidation

Embeds consolidateResults from src/workflows/org-validation/steps.ts.
Worker results are loosely typed (any) in the source; the fields the
consolidation step actually reads are modelled as optional fields, and a
missing worker result is an Option around the record. -/

/-- Fields of a legal-scout worker result read by consolidation. -/
structure LegalResult where
  legalName : Option String
  name : Option String
  jurisdiction : Option String
deriving DecidableEq, Repr

/-- Fields of a sector-analyst worker result read by consolidation. -/
structure SectorResult where
  sector : Option String
  industry : Option String
  organizationName : Option String
deriving DecidableEq, Repr

/-- Fields of a trust-officer worker result read by consolidation. -/
structure TrustResult where
  confidence : Option ℚ
  score : Option ℚ
deriving DecidableEq, Repr

/-- Input record of the consolidateResults step. -/
structure ConsolidateInput where
  domain : String
  legalResult : Option LegalResult
  sectorResult : Option SectorResult
  trustResult : Option TrustResult
deriving DecidableEq, Repr

/-- Organization block of the consolidated output. -/
structure OrgInfo where
  legalName : String
  jurisdiction : String
  sector : String
deriving DecidableEq, Repr

/-- Payload carried by one source entry of the consolidated output. -/
inductive SourceData where
  | legal (d : Option LegalResult)
  | sector (d : Option SectorResult)
  | trust (d : Option TrustResult)
deriving DecidableEq, Repr

/-- One entry of the sources array of the consolidated output. -/
structure SourceEntry where
  type : String
  source : String
  data : SourceData
deriving DecidableEq, Repr

/-- Output record of the consolidateResults step. -/
structure Consolidated where
  validated : Bool
  organization : OrgInfo
  confidence : ℚ
  sources : List SourceEntry
  reasoning : String
deriving DecidableEq, Repr

/-- The trust score the consolidation step derives from the trust worker:
confidence, else score, else 0 (JS truthiness). -/
def trustScoreOf (input : ConsolidateInput) : ℚ :=
  jsOrQ (input.trustResult.bind (·.confidence)) (input.trustResult.bind (·.score))

/-- The legal name the consolidation step derives: legalName, else name,
else the string Unknown. -/
def legalNameOf (input : ConsolidateInput) : String :=
  jsOrStr (input.legalResult.bind (·.legalName)) (input.legalResult.bind (·.name)) "Unknown"

/-- Guard of the cross-check branch: both the legalName field of the legal
result and the sector field of the sector result are truthy. -/
def crossCheckGuard (input : ConsolidateInput) : Bool :=
  strTruthy (input.legalResult.bind (·.legalName)) &&
    strTruthy (input.sectorResult.bind (·.sector))

/-- The name-agreement test of the cross-check branch: the normalized legal
name equals, contains or is contained in the normalized organizationName of
the sector result (empty if absent). -/
def namesAgree (input : ConsolidateInput) : Bool :=
  let ln := (legalNameOf input).toLower.trim
  let sn := (jsOrStr1 (input.sectorResult.bind (·.organizationName)) "").toLower.trim
  ln = sn || strIncludes ln sn || strIncludes sn ln

/-- Model of the JS Number.toFixed(0) rendering used in the reasoning string:
round to the nearest integer. -/
def jsToFixed0 (q : ℚ) : ℤ := round q

/-- Embedding of the consolidateResults step of
src/workflows/org-validation/steps.ts (lines 95-145): derive the organization
fields with Unknown defaults, start from the trust score, bump confidence by
0.2 (capped at 1) when the legal and sector names agree and drop it by 0.3
(floored at 0) when they disagree, and validate when confidence exceeds 0.5. -/
def consolidateResults (input : ConsolidateInput) : Consolidated :=
  let legalName := legalNameOf input
  let jurisdiction := jsOrStr1 (input.legalResult.bind (·.jurisdiction)) "Unknown"
  let sector :=
    jsOrStr (input.sectorResult.bind (·.sector)) (input.sectorResult.bind (·.industry)) "Unknown"
  let trustScore := trustScoreOf input
  let confidence :=
    if crossCheckGuard input then
      if namesAgree input then min 1 (trustScore + 2/10) else max 0 (trustScore - 3/10)
    else trustScore
  let pct := jsToFixed0 (trustScore * 100)
  let tail :=
    if confidence > 7/10 then "High consistency across sources."
    else if confidence > 4/10 then "Moderate consistency with some discrepancies."
    else "Low consistency - manual review recommended."
  let reasoning :=
    "Legal Scout identified \"" ++ legalName ++ "\" in " ++ jurisdiction ++
      ". Sector Analyst classified as " ++ sector ++
      ". Trust Officer assigned confidence " ++ toString pct ++ "%. " ++ tail
  { validated := confidence > 5/10
    organization := { legalName, jurisdiction, sector }
    confidence
    sources :=
      [ { type := "legal", source := "Legal Registry", data := .legal input.legalResult }
      , { type := "sector", source := "Industry Database", data := .sector input.sectorResult }
      , { type := "trust", source := "Trust Verification", data := .trust input.trustResult } ]
    reasoning }

/-! ## Fan-out join: Promise.all over completion times

The org-validation workflow dispatches the three worker steps and joins them
with Promise.all (src/workflows/org-validation/workflow.ts lines 47-51).
A settled promise is modelled as a completion time plus an outcome; a step
promise rejects when its step fails fatally.  Promise.all resolves with the
vector of values in dispatch order once every promise has resolved, and
rejects with the first rejection as soon as that rejection settles, without
waiting for the remaining promises. -/

/-- A settled promise: the time it settles and its outcome. -/
structure Settled (E α : Type) where
  time : ℕ
  outcome : Except E α
deriving Repr

/-- The rejection among the candidates that settles first (earlier listed
slot wins a tie, matching scheduler order for simultaneous settlement). -/
def earliestRejection {E : Type} : List (ℕ × E) → Option (ℕ × E)
  | [] => none
  | x :: xs => some (xs.foldl (fun best y => if y.1 < best.1 then y else best) x)

/-- The rejections among three settled promises, in slot order. -/
def rejectionsOf3 {E α β γ : Type} (p1 : Settled E α) (p2 : Settled E β)
    (p3 : Settled E γ) : List (ℕ × E) :=
  (match p1.outcome with | .error e => [(p1.time, e)] | .ok _ => []) ++
  (match p2.outcome with | .error e => [(p2.time, e)] | .ok _ => []) ++
  (match p3.outcome with | .error e => [(p3.time, e)] | .ok _ => [])

/-- Model of Promise.all over three promises: all values in slot order once
all have resolved, else the earliest rejection at its own settle time. -/
def promiseAll3 {E α β γ : Type} (p1 : Settled E α) (p2 : Settled E β)
    (p3 : Settled E γ) : Settled E (α × β × γ) :=
  match earliestRejection (rejectionsOf3 p1 p2 p3), p1.outcome, p2.outcome, p3.outcome with
  | some (t, e), _, _, _ => ⟨t, .error e⟩
  | none, .ok a, .ok b, .ok c => ⟨max p1.time (max p2.time p3.time), .ok (a, b, c)⟩
  | none, .error e, _, _ => ⟨p1.time, .error e⟩
  | none, _, .error e, _ => ⟨p2.time, .error e⟩
  | none, _, _, .error e => ⟨p3.time, .error e⟩

/-- Fatal step error carried by a rejected step promise. -/
inductive StepError where
  | fatal (msg : String)
deriving DecidableEq, Repr

/-- The fan-out join of the orgValidation workflow: await Promise.all of the
legal, sector and trust worker steps (dispatched in that order) and form the
input record of the consolidation step; a rejection propagates and the
consolidation step is not invoked. -/
def orgValidationJoin (domain : String)
    (legal : Settled StepError (Option LegalResult))
    (sector : Settled StepError (Option SectorResult))
    (trust : Settled StepError (Option TrustResult)) :
    Except StepError ConsolidateInput :=
  match promiseAll3 legal sector trust with
  | ⟨_, .ok (l, s, t)⟩ =>
      .ok { domain := domain, legalResult := l, sectorResult := s, trustResult := t }
  | ⟨_, .error e⟩ => .error e

/-- The time at which the fan-out join of the orgValidation workflow
settles. -/
def orgValidationJoinSettleTime
    (legal : Settled StepError (Option LegalResult))
    (sector : Settled StepError (Option SectorResult))
    (trust : Settled StepError (Option TrustResult)) : ℕ :=
  (promiseAll3 legal sector trust).time

/-- The orgValidation workflow after the join: the consolidation step runs
on the joined vector. -/
def orgValidationRun (domain : String)
    (legal : Settled StepError (Option LegalResult))
    (sector : Settled StepError (Option SectorResult))
    (trust : Settled StepError (Option TrustResult)) :
    Except StepError Consolidated :=
  (orgValidationJoin domain legal sector trust).map consolidateResults

/-! ## Hook waits: Promise.race of a hook against a sleep timeout

Each approval gate awaits Promise.race of the hook promise and an async
sleep that resolves to an explicit negative decision.  A hook resolution is
modelled as the arrival time of the external resume with its payload, or
none when no resume ever arrives; the sleep resolves at the timeout
duration.  The earlier settler wins; on a tie the hook wins since it is
listed first. -/

/-- Decision payload delivered by the approval hooks (approved flag,
optional comment and approver, optional list of edit reasons for the
manager-review hook). -/
structure ApprovalDecision where
  approved : Bool
  comment : Option String
  decidedBy : Option String := none
  edits : List String := []
deriving DecidableEq, Repr

/-- Model of Promise.race between a hook resolution and a sleep of d
milliseconds resolving to the timeout value. -/
def raceHookTimeout {α : Type} (hook : Option (ℕ × α)) (d : ℕ) (timeoutVal : α) : α :=
  match hook with
  | none => timeoutVal
  | some (t, v) => if t ≤ d then v else timeoutVal

/-- The timeout branch wins the race: the hook never resolves or resolves
only after the sleep. -/
def timeoutWins {α : Type} (hook : Option (ℕ × α)) (d : ℕ) : Bool :=
  match hook with
  | none => true
  | some (t, _) => decide (d < t)

/-- Milliseconds of the 1h timeout literal. -/
def hourMs : ℕ := 3600000

/-- Milliseconds of the 2h timeout literal. -/
def twoHoursMs : ℕ := 7200000

/-- Timeout decision of the teacher-verification approval race. -/
def teacherTimeoutDecision : ApprovalDecision :=
  { approved := false, comment := some "Approval timeout" }

/-- Timeout decision of the clause-validation approval race. -/
def clauseTimeoutDecision : ApprovalDecision :=
  { approved := false, comment := some "Clause validation approval timeout" }

/-- Timeout decision of the contract-manager review race. -/
def managerTimeoutDecision : ApprovalDecision :=
  { approved := false, comment := some "Manager review timeout" }

/-- Timeout decision of the legal approval race. -/
def legalTimeoutDecision : ApprovalDecision :=
  { approved := false, comment := some "Legal approval timeout" }

/-! ## Teacher verification steps

Embedded from the step implementations the workflow of src/unnamed/part_011
calls (copyMemberIdentifier, queryStateRegistry via the mock registry route,
validateMemberDetails) in src/agents/deal-verification/index.ts lines
519-629 and src/app/api/mocks/teacher-verification/registry/[state]/route.ts. -/

/-- Input of the teacher verification workflow. -/
structure TeacherInput where
  memberId : Option String
  memberName : Option String
  dateOfBirth : Option String
  state : String
  msrId : String
deriving DecidableEq, Repr

/-- Identifier triple returned by the copyMemberIdentifier step. -/
structure Identifier where
  memberId : Option String
  memberName : Option String
  dateOfBirth : Option String
deriving DecidableEq, Repr

/-- Record shape served by the mock state registry route. -/
structure RegistryRecord where
  found : Bool
  name : Option String
  dateOfBirth : Option String
  employmentStatus : String
  school : Option String := none
  district : Option String := none
  licenseNumber : Option String := none
  licenseExpiry : Option String := none
deriving DecidableEq, Repr

/-- Registry entry of member 12345 in the mock registry. -/
def johnDoeRecord : RegistryRecord :=
  { found := true, name := some "John Doe", dateOfBirth := some "1985-05-15"
    employmentStatus := "active", school := some "Lincoln High School"
    district := some "Springfield School District"
    licenseNumber := some "CA-TEACH-12345", licenseExpiry := some "2026-12-31" }

/-- Registry entry of member 67890 in the mock registry. -/
def janeSmithRecord : RegistryRecord :=
  { found := true, name := some "Jane Smith", dateOfBirth := some "1990-08-22"
    employmentStatus := "active", school := some "Washington Elementary"
    district := some "Riverside School District"
    licenseNumber := some "CA-TEACH-67890", licenseExpiry := some "2027-06-30" }

/-- The mock registry table keyed by member id. -/
def mockRegistryEntries : List (String × RegistryRecord) :=
  [("12345", johnDoeRecord), ("67890", janeSmithRecord)]

/-- Embedding of the POST handler of the mock state registry route: look up
by member id first, then by name plus date of birth, else a not-found
record (the state path parameter does not influence the lookup). -/
def mockRegistryPOST (memberId memberName dateOfBirth : Option String) :
    RegistryRecord :=
  match (if strTruthy memberId then mockRegistryEntries.lookup (memberId.getD "") else none) with
  | some r => r
  | none =>
    match (if strTruthy memberName && strTruthy dateOfBirth then
        mockRegistryEntries.find? (fun p =>
          (p.2.name.getD "").toLower = (memberName.getD "").toLower &&
            p.2.dateOfBirth = dateOfBirth)
      else none) with
    | some p => p.2
    | none =>
      { found := false
        name := if strTruthy memberName then memberName else none
        dateOfBirth := if strTruthy dateOfBirth then dateOfBirth else none
        employmentStatus := "unknown" }

/-- Embedding of the copyMemberIdentifier step: fail fatally unless a member
id or a name plus date of birth is supplied, else pass the triple through. -/
def copyMemberIdentifier (memberId memberName dateOfBirth : Option String) :
    Except StepError Identifier :=
  if !strTruthy memberId && (!strTruthy memberName || !strTruthy dateOfBirth) then
    .error (.fatal "Either memberId or (memberName + dateOfBirth) is required")
  else
    .ok { memberId := memberId, memberName := memberName, dateOfBirth := dateOfBirth }

/-- Embedding of the queryStateRegistry step composed with the mock registry
collaborator it fetches. -/
def queryStateRegistry (identifier : Identifier) (state : String) : RegistryRecord :=
  let _ := state
  mockRegistryPOST identifier.memberId identifier.memberName identifier.dateOfBirth

/-- Match block of the validation result. -/
structure RegistryMatch where
  found : Bool
  nameMatch : Bool
  dobMatch : Bool
  employmentStatus : String
  details : Option RegistryRecord
deriving DecidableEq, Repr

/-- Result of the validateMemberDetails step. -/
structure Validation where
  verified : Bool
  registryMatch : RegistryMatch
deriving DecidableEq, Repr

/-- Embedding of the validateMemberDetails step: a missing registry record
fails verification; name and date-of-birth checks default to a match when
the corresponding input is absent; employment must be active or employed. -/
def validateMemberDetails (memberId memberName dateOfBirth : Option String)
    (registry : RegistryRecord) : Validation :=
  let _ := memberId
  if !registry.found then
    { verified := false
      registryMatch :=
        { found := false, nameMatch := false, dobMatch := false
          employmentStatus := "unknown", details := none } }
  else
    let nameMatch :=
      if strTruthy memberName then
        match registry.name with
        | some n => n.toLower = (memberName.getD "").toLower
        | none => false
      else true
    let dobMatch :=
      if strTruthy dateOfBirth then registry.dateOfBirth = dateOfBirth else true
    let employmentStatus :=
      if registry.employmentStatus = "" then "unknown" else registry.employmentStatus
    let isActive := employmentStatus = "active" || employmentStatus = "employed"
    { verified := nameMatch && dobMatch && isActive
      registryMatch :=
        { found := true, nameMatch := nameMatch, dobMatch := dobMatch
          employmentStatus := employmentStatus, details := some registry } }

/-- Result record of the teacher verification workflow. -/
structure TeacherResult where
  verificationId : String
  memberId : Option String
  memberName : Option String
  state : String
  verified : Bool
  approved : Bool
  registryMatch : RegistryMatch
  approval : Option ApprovalDecision
  error : Option String
deriving DecidableEq, Repr

/-- The verification id the workflow body computes from the msrId and the
ambient clock reading (part_011 line 41). -/
def teacherVerificationId (msrId : String) (now : ℕ) : String :=
  "teacher-verification:" ++ msrId ++ ":" ++ toString now

/-- The approval hook token the workflow body derives from the verification
id (part_011 line 97). -/
def teacherApprovalToken (msrId : String) (now : ℕ) : String :=
  teacherVerificationId msrId now ++ ":approval"

/-- Return branch of the teacher workflow once the approval decision is
known (part_011 lines 123-156). -/
def teacherFinalize (verificationId : String) (identifier : Identifier)
    (state : String) (validation : Validation) (decision : ApprovalDecision) :
    TeacherResult :=
  if !decision.approved then
    { verificationId := verificationId, memberId := identifier.memberId
      memberName := identifier.memberName, state := state
      verified := validation.verified, approved := false
      registryMatch := validation.registryMatch, approval := some decision
      error := some "Verification not approved by MSR" }
  else
    { verificationId := verificationId, memberId := identifier.memberId
      memberName := identifier.memberName, state := state
      verified := validation.verified, approved := true
      registryMatch := validation.registryMatch, approval := some decision
      error := none }

/-- The approval gate of the teacher workflow: race the hook against a 1h
sleep resolving to the timeout decision, then finalize (part_011 lines
114-135). -/
def teacherApprovalGate (verificationId : String) (identifier : Identifier)
    (state : String) (validation : Validation)
    (hookRes : Option (ℕ × ApprovalDecision)) : TeacherResult :=
  teacherFinalize verificationId identifier state validation
    (raceHookTimeout hookRes hourMs teacherTimeoutDecision)

/-! ## Contract management gates

Embedded from src/workflows/newfront/contract-management/workflow.ts: the
clause-validation gate (lines 155-184) raises a FatalError when the decision
is negative, while the manager-review gate (lines 242-295) and the legal
approval gate (lines 301-337) return a normal result recording the
decision. -/

/-- Fields of the early-return result records of the contract workflow that
the gates populate. -/
structure ContractGateResult where
  contractId : String
  draft : String
  error : Option String
  managerReview : Option ApprovalDecision
  legalApproval : Option ApprovalDecision
deriving DecidableEq, Repr

/-- The clause-validation approval gate: race against a 2h sleep; a negative
decision raises a FatalError that fails the run. -/
def clauseValidationGate (contractId : String)
    (hookRes : Option (ℕ × ApprovalDecision)) : Except StepError ApprovalDecision :=
  let d := raceHookTimeout hookRes twoHoursMs clauseTimeoutDecision
  if !d.approved then
    .error (.fatal ("Clause validation not approved for contractId: " ++ contractId ++
      ". Comment: " ++ jsOrStr1 d.comment "Approval denied"))
  else .ok d

/-- The contract-manager review gate: race against a 1h sleep; a negative
decision returns a normal result with the manager review recorded (the
redline generation on supplied edits only logs and does not change the
returned record); a positive decision lets the workflow proceed. -/
def managerReviewGate (contractId draft : String)
    (hookRes : Option (ℕ × ApprovalDecision)) : Option ContractGateResult :=
  let d := raceHookTimeout hookRes hourMs managerTimeoutDecision
  if d.approved = false then
    some { contractId := contractId, draft := draft
           error := some "Manager review not approved"
           managerReview := some d, legalApproval := none }
  else none

/-- The legal approval gate: race against a 2h sleep; a negative decision
returns a normal result with the legal decision recorded. -/
def legalApprovalGate (contractId draft : String)
    (hookRes : Option (ℕ × ApprovalDecision)) : Option ContractGateResult :=
  let d := raceHookTimeout hookRes twoHoursMs legalTimeoutDecision
  if d.approved = false then
    some { contractId := contractId, draft := draft
           error := some "Legal approval denied or timeout"
           managerReview := none, legalApproval := some d }
  else none

/-! ## Workflow body trace of the teacher verification workflow

The body of teacherVerification (src/unnamed/part_011) is straight-line
orchestration until the approval race: it reads the ambient clock into the
verification id, runs three steps, creates the approval hook and fires the
notification step.  The trace records, in program order, each step call with
its argument and each hook creation; the body is a function of the workflow
input, the ambient clock reading and the observed step results. -/

/-- One event of the workflow body: a step call with its input, a hook
creation with its token, or the approval race. -/
inductive BodyEvent where
  | stepCopy (memberId memberName dateOfBirth : Option String)
  | stepQueryRegistry (identifier : Identifier) (state : String)
  | stepValidate (identifier : Identifier) (registry : RegistryRecord)
  | hookCreate (token : String)
  | stepSendApproval (token : String) (email : String)
  | raceApprovalWait
deriving DecidableEq, Repr

/-- The sequence of step calls and hook creations the teacher workflow body
performs up to the approval race, as a function of the input, the ambient
clock reading taken at line 41 and the observed step results. -/
def teacherBodyTrace (input : TeacherInput) (now : ℕ) (identifier : Identifier)
    (registry : RegistryRecord) : List BodyEvent :=
  [ .stepCopy input.memberId input.memberName input.dateOfBirth
  , .stepQueryRegistry identifier input.state
  , .stepValidate identifier registry
  , .hookCreate (teacherApprovalToken input.msrId now)
  , .stepSendApproval (teacherApprovalToken input.msrId now)
      ("msr-" ++ input.msrId ++ "@example.com")
  , .raceApprovalWait ]

/-! ## Workflow body trace of the contract management workflow

The body of contractManagement
(src/workflows/newfront/contract-management/workflow.ts) draws its contract
id from Math.random (line 56): the ambient draw is modelled as the resulting
base-36 suffix string.  The trace records, in program order, the step calls,
hook creations and races of the body as a function of the input, that
ambient draw and the observed step results (the policy verdict, the
needsApproval flag of clause validation and the three awaited decisions),
following the early returns of the source: a disallowed policy returns
immediately, a rejected clause validation throws, a rejected manager review
returns after an optional redline step, and a rejected legal approval
returns before the counterparty and archive steps. -/

/-- One event of the contract workflow body. -/
inductive CBodyEvent where
  | stepPolicyCheck (persona action : String)
  | stepDraftContract (contractType jurisdiction : String)
  | stepExtractData
  | stepValidateClauses (contractId : String)
  | stepDetectRisks (contractId : String)
  | hookCreate (token : String)
  | stepSendApproval (token email kind : String)
  | raceWait (timeoutMs : ℕ)
  | stepGenerateRedline
  | stepArchive (contractId : String)
deriving DecidableEq, Repr

/-- Input fields of the contract workflow the body reads. -/
structure ContractInput where
  requesterId : String
  requesterRole : String
  contractType : String
  jurisdiction : String
  party2Name : Option String
deriving DecidableEq, Repr

/-- The contract id the body computes from the requester id and the ambient
Math.random draw (workflow.ts lines 56-57). -/
def contractIdOf (input : ContractInput) (randomSuffix : String) : String :=
  "contract:" ++ input.requesterId ++ ":" ++ randomSuffix

/-- Clause-validation approval token (workflow.ts line 156). -/
def clauseApprovalToken (contractId : String) : String :=
  contractId ++ ":clause-validation-approval"

/-- Manager review token (workflow.ts line 243). -/
def managerReviewToken (contractId : String) : String :=
  contractId ++ ":manager-review"

/-- Legal approval token (workflow.ts line 301). -/
def legalApprovalToken (contractId : String) : String :=
  contractId ++ ":legal-approval"

/-- Collapse each maximal whitespace run to one dash, as the regex replace
of the counterparty email derivation does; the flag records whether the
previous character was whitespace. -/
def collapseWsAux : Bool → List Char → List Char
  | _, [] => []
  | prevWs, c :: cs =>
    if c.isWhitespace then
      (if prevWs then [] else ['-']) ++ collapseWsAux true cs
    else c :: collapseWsAux false cs

/-- Model of the JS replace of whitespace runs by dashes. -/
def collapseWs (l : List Char) : List Char := collapseWsAux false l

/-- The counterparty email the body derives from the second party name
(workflow.ts lines 343-345). -/
def counterpartyEmailOf (party2Name : Option String) : String :=
  if strTruthy party2Name then
    String.mk (collapseWs (party2Name.getD "").toLower.toList) ++ "@example.com"
  else "counterparty@example.com"

/-- The sequence of step calls, hook creations and races the contract
workflow body performs, as a function of the input, the ambient random draw
and the observed step results. -/
def contractBodyTrace (input : ContractInput) (randomSuffix : String)
    (policyAllowed needsApproval : Bool)
    (clauseDecision managerDecision legalDecision : ApprovalDecision) :
    List CBodyEvent :=
  let cid := contractIdOf input randomSuffix
  let legalTail :=
    [CBodyEvent.hookCreate (legalApprovalToken cid),
     CBodyEvent.stepSendApproval (legalApprovalToken cid) "legal@newfront.com" "legal",
     CBodyEvent.raceWait twoHoursMs] ++
    (if legalDecision.approved = false then []
     else
       [CBodyEvent.stepSendApproval (cid ++ ":counterparty")
          (counterpartyEmailOf input.party2Name) "counterparty",
        CBodyEvent.stepArchive cid])
  let managerTail :=
    if input.requesterRole = "requester" then
      [CBodyEvent.hookCreate (managerReviewToken cid),
       CBodyEvent.stepSendApproval (managerReviewToken cid)
         "contract-manager@newfront.com" "contract_manager",
       CBodyEvent.raceWait hourMs] ++
      (if managerDecision.approved = false then
         (if managerDecision.edits.isEmpty then [] else [CBodyEvent.stepGenerateRedline])
       else legalTail)
    else legalTail
  let riskTail := CBodyEvent.stepDetectRisks cid :: managerTail
  let clauseTail :=
    if needsApproval then
      [CBodyEvent.hookCreate (clauseApprovalToken cid),
       CBodyEvent.stepSendApproval (clauseApprovalToken cid)
         "legal@newfront.com" "clause-validation",
       CBodyEvent.raceWait twoHoursMs] ++
      (if clauseDecision.approved = false then [] else riskTail)
    else riskTail
  CBodyEvent.stepPolicyCheck input.requesterRole "draft" ::
  (if policyAllowed = false then []
   else
     CBodyEvent.stepDraftContract input.contractType input.jurisdiction ::
     CBodyEvent.stepExtractData ::
     CBodyEvent.stepValidateClauses cid ::
     clauseTail)

/-- Decides whether the first list is a prefix of the second. -/
def seqStartsWith {β : Type} [DecidableEq β] : List β → List β → Bool
  | [], _ => true
  | _ :: _, [] => false
  | p :: ps, x :: xs => p = x && seqStartsWith ps xs

/-- Decides whether the first list occurs contiguously inside the second. -/
def seqContains {β : Type} [DecidableEq β] (pat : List β) : List β → Bool
  | [] => seqStartsWith pat []
  | x :: xs => seqStartsWith pat (x :: xs) || seqContains pat xs

/-- Concrete contract input of the C4 witness. -/
def c4ContractInput : ContractInput :=
  { requesterId := "u1", requesterRole := "requester", contractType := "NDA"
    jurisdiction := "CA", party2Name := some "Acme Corp" }

/-! ## Durable replay runtime

Modelled from the spec: the durable workflow runtime that interprets the
use-step markers lives in the external workflow package and is not part of
src; section 4.2 of the specification defines its contract: after each step
the result is appended to the run checkpoint and persisted before
continuing, and a resumed run re-enters the workflow function, replays up to
the last checkpoint by returning the previously committed results without
re-invoking side effects, then proceeds live.

A workflow program is a tree of step calls, each continuation receiving the
result of its step; a run from a committed checkpoint consumes the log,
feeding each committed result to the body without invoking the executor, and
invokes the executor only once the log is exhausted. -/

/-- A workflow program over step-result values of type V: return a value, or
call a named step with an input and continue with its result. -/
inductive WProg (V : Type) (α : Type) where
  | ret (a : α)
  | step (name : String) (input : V) (k : V → WProg V α)

/-- Outcome of running a workflow program: the returned value, the absolute
indices of the step calls whose side-effecting function was actually
invoked, and the step results the body observed in order. -/
structure RunOutcome (V α : Type) where
  val : α
  invoked : List ℕ
  observed : List V

/-- Run a workflow program from call-site index idx against the committed
checkpoint log: while the log lasts, committed results are fed back without
invoking the executor; past the log, the executor exec runs each step live. -/
def runFrom {V α : Type} (exec : ℕ → String → V → V) :
    ℕ → List V → WProg V α → RunOutcome V α
  | _, _, .ret a => ⟨a, [], []⟩
  | idx, [], .step n inp k =>
      let r := exec idx n inp
      let R := runFrom exec (idx + 1) [] (k r)
      ⟨R.val, idx :: R.invoked, r :: R.observed⟩
  | idx, r :: rest, .step _ _ k =>
      let R := runFrom exec (idx + 1) rest (k r)
      ⟨R.val, R.invoked, r :: R.observed⟩

/-! ## Token normalization and the approval routes

The resume endpoints (src/app/api/workflows/teacher-verification/approve/
route.ts and src/unnamed/part_002) normalize the raw token before hook
lookup: decodeURIComponent with fallback to the raw string on failure, then
strip a trailing run of single quotes, double quotes and commas, then trim
whitespace.  decodeURIComponent is modelled byte-accurately: percent escapes
become bytes, other characters contribute their UTF-8 bytes, and the byte
sequence must decode as valid UTF-8 or the whole decode fails. -/

/-- Value of a hexadecimal digit character, if any. -/
def hexDigit? (c : Char) : Option ℕ :=
  if 48 ≤ c.toNat ∧ c.toNat ≤ 57 then some (c.toNat - 48)
  else if 65 ≤ c.toNat ∧ c.toNat ≤ 70 then some (c.toNat - 55)
  else if 97 ≤ c.toNat ∧ c.toNat ≤ 102 then some (c.toNat - 87)
  else none

/-- UTF-8 bytes of one character. -/
def utf8Bytes (c : Char) : List ℕ :=
  let n := c.toNat
  if n < 128 then [n]
  else if n < 2048 then [192 + n / 64, 128 + n % 64]
  else if n < 65536 then [224 + n / 4096, 128 + n / 64 % 64, 128 + n % 64]
  else [240 + n / 262144, 128 + n / 4096 % 64, 128 + n / 64 % 64, 128 + n % 64]

/-- Translate a percent-encoded character sequence to bytes: a percent sign
must be followed by two hex digits and yields that byte; any other character
contributes its UTF-8 bytes. -/
def percentToBytes : List Char → Option (List ℕ)
  | [] => some []
  | '%' :: c1 :: c2 :: rest =>
      match hexDigit? c1, hexDigit? c2 with
      | some h, some l => (percentToBytes rest).map ((h * 16 + l) :: ·)
      | _, _ => none
  | '%' :: _ => none
  | c :: rest => (percentToBytes rest).map (utf8Bytes c ++ ·)

/-- A UTF-8 continuation byte. -/
def isCont (b : ℕ) : Bool := 128 ≤ b && b ≤ 191

/-- Decode a byte sequence as UTF-8, rejecting malformed, overlong and
surrogate sequences as decodeURIComponent does. -/
def utf8Decode : List ℕ → Option (List Char)
  | [] => some []
  | b :: rest =>
    if b < 128 then (utf8Decode rest).map (Char.ofNat b :: ·)
    else if b < 194 then none
    else if b ≤ 223 then
      match rest with
      | b2 :: rest2 =>
          if isCont b2 then
            (utf8Decode rest2).map (Char.ofNat ((b - 192) * 64 + (b2 - 128)) :: ·)
          else none
      | [] => none
    else if b ≤ 239 then
      match rest with
      | b2 :: b3 :: rest3 =>
          let v := (b - 224) * 4096 + (b2 - 128) * 64 + (b3 - 128)
          if isCont b2 && isCont b3 && decide (2048 ≤ v) &&
              !(55296 ≤ v && v ≤ 57343) then
            (utf8Decode rest3).map (Char.ofNat v :: ·)
          else none
      | _ => none
    else if b ≤ 244 then
      match rest with
      | b2 :: b3 :: b4 :: rest4 =>
          let v := (b - 240) * 262144 + (b2 - 128) * 4096 + (b3 - 128) * 64 + (b4 - 128)
          if isCont b2 && isCont b3 && isCont b4 &&
              decide (65536 ≤ v) && decide (v ≤ 1114111) then
            (utf8Decode rest4).map (Char.ofNat v :: ·)
          else none
      | _ => none
    else none

/-- Model of the JS decodeURIComponent builtin: none models a thrown
URIError. -/
def jsDecodeURIComponent (s : String) : Option String :=
  ((percentToBytes s.toList).bind utf8Decode).map String.mk

/-- Characters stripped from the end of a token: single quote, double quote
and comma (the regex character class of the routes). -/
def isTrailingJunk (c : Char) : Bool :=
  c.toNat = 39 || c.toNat = 34 || c.toNat = 44

/-- Strip the longest trailing run of quote and comma characters. -/
def stripTrailingJunk (s : String) : String :=
  String.mk ((s.toList.reverse.dropWhile isTrailingJunk).reverse)

/-- Model of the JS String.trim method: drop whitespace from both ends. -/
def jsTrim (s : String) : String :=
  String.mk (((s.toList.dropWhile Char.isWhitespace).reverse.dropWhile
    Char.isWhitespace).reverse)

/-- Token normalization performed by the resume endpoints before hook
lookup: percent-decode with fallback to the raw token, strip trailing junk,
trim whitespace. -/
def normalizeToken (raw : String) : String :=
  jsTrim (stripTrailingJunk ((jsDecodeURIComponent raw).getD raw))

/-- JSON-ish value of a request-body field. -/
inductive JVal where
  | jstr (s : String)
  | jbool (b : Bool)
  | jnum (q : ℚ)
  | jnull
deriving DecidableEq, Repr

/-- Whether a field value is a string (the typeof check of the routes; an
absent field is undefined and is not a string). -/
def jIsStr : Option JVal → Bool
  | some (.jstr _) => true
  | _ => false

/-- Whether a field value is a boolean. -/
def jIsBool : Option JVal → Bool
  | some (.jbool _) => true
  | _ => false

/-- Request body of the approve endpoints; comment and approver fields are
passed through to the hook payload and do not influence control flow. -/
structure ApproveBody where
  token : Option JVal
  approved : Option JVal
  comment : Option JVal := none
  decidedBy : Option JVal := none
deriving DecidableEq, Repr

/-- Response of an approve endpoint: HTTP status, the ok field and runId of
a JSON body when one is returned, and the error label. -/
structure ApiResponse where
  status : ℕ
  okField : Option Bool
  runId : Option String
  errorLabel : Option String
deriving DecidableEq, Repr

/-- Embedding of the POST handler of the teacher-verification approve
route: 400 unless the token is a string and approved a boolean; otherwise
normalize the token, look up the hook, answer 404 with ok false when the
lookup yields nothing and 200 with ok true and the runId otherwise.  The
second component records the normalized token the handler looked up. -/
def teacherApprovePOST (resume : String → Option String) (body : ApproveBody) :
    ApiResponse × Option String :=
  match body.token, body.approved with
  | some (.jstr raw), some (.jbool _) =>
      let token := normalizeToken raw
      match resume token with
      | none =>
          ({ status := 404, okField := some false, runId := none
             errorLabel := some "Hook not found" }, some token)
      | some rid =>
          ({ status := 200, okField := some true, runId := some rid
             errorLabel := none }, some token)
  | _, _ =>
      ({ status := 400, okField := none, runId := none, errorLabel := none }, none)

/-- The hook kind a contract-approval resume is routed to. -/
inductive RoutedHook where
  | clauseValidation
  | contractApproval
deriving DecidableEq, Repr

/-- Embedding of the POST handler of the contract approval route
(src/unnamed/part_002): after the same validation and token normalization,
tokens containing the substring clause-validation-approval resume the
clause-validation hook and all other tokens resume the contract approval
hook.  The second component records the hook consulted and the token used. -/
def contractApprovePOST (resumeClause resumeContract : String → Option String)
    (body : ApproveBody) : ApiResponse × Option (RoutedHook × String) :=
  match body.token, body.approved with
  | some (.jstr raw), some (.jbool _) =>
      let token := normalizeToken raw
      if strIncludes token "clause-validation-approval" then
        match resumeClause token with
        | none =>
            ({ status := 404, okField := some false, runId := none
               errorLabel := some "Hook not found" }, some (.clauseValidation, token))
        | some rid =>
            ({ status := 200, okField := some true, runId := some rid
               errorLabel := none }, some (.clauseValidation, token))
      else
        match resumeContract token with
        | none =>
            ({ status := 404, okField := some false, runId := none
               errorLabel := some "Hook not found" }, some (.contractApproval, token))
        | some rid =>
            ({ status := 200, okField := some true, runId := some rid
               errorLabel := none }, some (.contractApproval, token))
  | _, _ =>
      ({ status := 400, okField := none, runId := none, errorLabel := none }, none)

/-! ## Concrete instances used by the scenarios and witnesses -/

/-- Witness input for the consolidation theorem: the Nike scenario of the
specification, with agreeing legal and sector names and trust score 0.95. -/
def nikeConsolidateInput : ConsolidateInput :=
  { domain := "nike.com"
    legalResult := some
      { legalName := some "Nike, Inc.", name := none, jurisdiction := some "Oregon, USA" }
    sectorResult := some
      { sector := some "Consumer Goods", industry := none
        organizationName := some "Nike, Inc." }
    trustResult := some { confidence := some (95/100), score := none } }

/-- Concrete legal worker result used in the fan-out counterexample. -/
def cLegal : LegalResult :=
  { legalName := some "Acme Corp", name := none, jurisdiction := some "Delaware" }

/-- Concrete trust worker result used in the fan-out counterexample. -/
def cTrust : TrustResult := { confidence := some (8/10), score := none }

/-- Input of the end-to-end teacher verification scenario: member 12345 in
California handled by MSR msr-1, no name or date of birth supplied. -/
def c9Input : TeacherInput :=
  { memberId := some "12345", memberName := none, dateOfBirth := none
    state := "CA", msrId := "msr-1" }

/-- Identifier produced by the copy step in the scenario. -/
def c9Identifier : Identifier :=
  { memberId := some "12345", memberName := none, dateOfBirth := none }

/-- Registry record the scenario obtains from the mock registry. -/
def c9Registry : RegistryRecord := queryStateRegistry c9Identifier "CA"

/-- Validation the scenario computes from the registry record. -/
def c9Validation : Validation :=
  validateMemberDetails c9Identifier.memberId c9Identifier.memberName
    c9Identifier.dateOfBirth c9Registry

/-- The negative resume decision of the scenario. -/
def c9Decision : ApprovalDecision := { approved := false, comment := none }

/-- Final workflow result of the scenario: the hook resolves negatively
1000 ms in, well within the 1h timeout. -/
def c9Result : TeacherResult :=
  teacherApprovalGate (teacherVerificationId "msr-1" 0) c9Identifier "CA"
    c9Validation (some (1000, c9Decision))

/-- Checks whether an exceptional computation succeeded. -/
def exceptIsOk {ε α : Type} : Except ε α → Bool
  | .ok _ => true
  | .error _ => false

/-- Executor of the first run in the replay witness. -/
def c1Exec : ℕ → String → ℕ → ℕ := fun i _ v => v + i + 10

/-- Executor of the resumed run in the replay witness: deliberately
different, so that a re-invocation of a committed step would be visible. -/
def c1Exec2 : ℕ → String → ℕ → ℕ := fun i _ v => v + i + 100

/-- Two-step program of the replay witness. -/
def c1Prog : WProg ℕ ℕ :=
  .step "a" 0 (fun x => .step "b" x (fun y => .ret (x + y)))

/-! ## Theorems -/

/-- Projection of the confidence computed by consolidateResults. -/
theorem consolidateResults_confidence_eq (input : ConsolidateInput) :
    (consolidateResults input).confidence =
      if crossCheckGuard input then
        if namesAgree input then min 1 (trustScoreOf input + 2/10)
        else max 0 (trustScoreOf input - 3/10)
      else trustScoreOf input := rfl

/-- Projection of the validated flag computed by consolidateResults. -/
theorem consolidateResults_validated_eq (input : ConsolidateInput) :
    (consolidateResults input).validated =
      decide ((consolidateResults input).confidence > 5/10) := rfl

/-- Projection of the organization block computed by consolidateResults. -/
theorem consolidateResults_organization_eq (input : ConsolidateInput) :
    (consolidateResults input).organization =
      { legalName := legalNameOf input
        jurisdiction := jsOrStr1 (input.legalResult.bind (·.jurisdiction)) "Unknown"
        sector := jsOrStr (input.sectorResult.bind (·.sector))
          (input.sectorResult.bind (·.industry)) "Unknown" } := rfl

/-- C10: consolidateResults is a deterministic pure function; with a trust
score in the unit interval the returned confidence stays in the unit
interval; under the cross-check guard, name agreement adds 0.2 capped at 1
and disagreement subtracts 0.3 floored at 0, otherwise the confidence is the
trust score unchanged; the validated flag is exactly (confidence above 0.5);
and missing legal-name, jurisdiction or sector fields come back as the
string Unknown rather than an error. -/
theorem C10_consolidateResults_pure_bounded (input : ConsolidateInput)
    (h0 : 0 ≤ trustScoreOf input) (h1 : trustScoreOf input ≤ 1) :
    (0 ≤ (consolidateResults input).confidence ∧
      (consolidateResults input).confidence ≤ 1) ∧
    (consolidateResults input).validated =
      decide ((consolidateResults input).confidence > 5/10) ∧
    (crossCheckGuard input = true → namesAgree input = true →
      (consolidateResults input).confidence = min 1 (trustScoreOf input + 2/10)) ∧
    (crossCheckGuard input = true → namesAgree input = false →
      (consolidateResults input).confidence = max 0 (trustScoreOf input - 3/10)) ∧
    (crossCheckGuard input = false →
      (consolidateResults input).confidence = trustScoreOf input) ∧
    (strTruthy (input.legalResult.bind (·.legalName)) = false →
      strTruthy (input.legalResult.bind (·.name)) = false →
      (consolidateResults input).organization.legalName = "Unknown") ∧
    (strTruthy (input.legalResult.bind (·.jurisdiction)) = false →
      (consolidateResults input).organization.jurisdiction = "Unknown") ∧
    (strTruthy (input.sectorResult.bind (·.sector)) = false →
      strTruthy (input.sectorResult.bind (·.industry)) = false →
      (consolidateResults input).organization.sector = "Unknown") := by
  refine ⟨?_, consolidateResults_validated_eq input, ?_, ?_, ?_, ?_, ?_, ?_⟩
  · rw [consolidateResults_confidence_eq]
    by_cases hg : crossCheckGuard input = true
    · by_cases ha : namesAgree input = true
      · rw [if_pos hg, if_pos ha]
        exact ⟨le_min (by norm_num) (by linarith), min_le_left _ _⟩
      · rw [if_pos hg, if_neg ha]
        exact ⟨le_max_left _ _, max_le (by norm_num) (by linarith)⟩
    · rw [if_neg hg]
      exact ⟨h0, h1⟩
  · intro hg ha
    rw [consolidateResults_confidence_eq, hg, ha]
    simp
  · intro hg ha
    rw [consolidateResults_confidence_eq, hg, ha]
    simp
  · intro hg
    rw [consolidateResults_confidence_eq, hg]
    simp
  · intro hln hn
    rw [consolidateResults_organization_eq]
    simp [legalNameOf, jsOrStr, hln, hn]
  · intro hj
    rw [consolidateResults_organization_eq]
    simp [jsOrStr1, hj]
  · intro hs hi
    rw [consolidateResults_organization_eq]
    simp [jsOrStr, hs, hi]

/-- Witness for C10 at the Nike input: the hypotheses hold and the
confidence is inside the unit interval. -/
theorem C10_consolidateResults_pure_bounded_witness :
    (0 ≤ trustScoreOf nikeConsolidateInput ∧ trustScoreOf nikeConsolidateInput ≤ 1) ∧
    (0 ≤ (consolidateResults nikeConsolidateInput).confidence ∧
      (consolidateResults nikeConsolidateInput).confidence ≤ 1) :=
  ⟨⟨by norm_num [trustScoreOf, jsOrQ, qTruthy, nikeConsolidateInput],
      by norm_num [trustScoreOf, jsOrQ, qTruthy, nikeConsolidateInput]⟩,
    (C10_consolidateResults_pure_bounded nikeConsolidateInput
      (by norm_num [trustScoreOf, jsOrQ, qTruthy, nikeConsolidateInput])
      (by norm_num [trustScoreOf, jsOrQ, qTruthy, nikeConsolidateInput])).1⟩

/-- C3: whatever the completion times of the three org-validation workers,
when all succeed the consolidation step receives the legal, sector and trust
results bound to their dispatch-order slots (legal first, sector second,
trust third), independent of completion order. -/
theorem C3_fanout_dispatch_order (domain : String) (t1 t2 t3 : ℕ)
    (l : Option LegalResult) (s : Option SectorResult) (tr : Option TrustResult) :
    orgValidationJoin domain ⟨t1, .ok l⟩ ⟨t2, .ok s⟩ ⟨t3, .ok tr⟩ =
      .ok { domain := domain, legalResult := l, sectorResult := s,
            trustResult := tr } := rfl

/-- C2 counterexample: with the legal worker resolving at time 10, the
sector worker failing fatally at time 5 and the trust worker resolving at
time 1, the join rejects with the sector error at time 5 - before the legal
sibling completes - and the consolidation step receives no vector at all,
contradicting the claim that the join waits for all outcomes and delivers a
per-slot error payload to consolidation. -/
theorem C2_counterexample_failfast :
    orgValidationJoin "acme.com" ⟨10, .ok (some cLegal)⟩
        ⟨5, .error (.fatal "sector worker failed")⟩ ⟨1, .ok (some cTrust)⟩ =
      .error (.fatal "sector worker failed") ∧
    orgValidationJoinSettleTime ⟨10, .ok (some cLegal)⟩
        ⟨5, .error (.fatal "sector worker failed")⟩ ⟨1, .ok (some cTrust)⟩ = 5 ∧
    (5 : ℕ) < 10 :=
  ⟨rfl, rfl, by norm_num⟩

/-- C2 amended: when exactly one org-validation worker step fails fatally
while both siblings are still in flight, the join rejects with that worker
error at the failure time - without waiting for the sibling outcomes - and
the consolidation step is not invoked with any vector. -/
theorem C2_amended_failfast_join (domain : String) (t1 t2 t3 : ℕ) (e : StepError)
    (l : Option LegalResult) (s : Option SectorResult) (tr : Option TrustResult) :
    (t1 < t2 → t1 < t3 →
      orgValidationJoin domain ⟨t1, .error e⟩ ⟨t2, .ok s⟩ ⟨t3, .ok tr⟩ = .error e ∧
      orgValidationJoinSettleTime ⟨t1, .error e⟩ ⟨t2, .ok s⟩ ⟨t3, .ok tr⟩ = t1) ∧
    (t2 < t1 → t2 < t3 →
      orgValidationJoin domain ⟨t1, .ok l⟩ ⟨t2, .error e⟩ ⟨t3, .ok tr⟩ = .error e ∧
      orgValidationJoinSettleTime ⟨t1, .ok l⟩ ⟨t2, .error e⟩ ⟨t3, .ok tr⟩ = t2) ∧
    (t3 < t1 → t3 < t2 →
      orgValidationJoin domain ⟨t1, .ok l⟩ ⟨t2, .ok s⟩ ⟨t3, .error e⟩ = .error e ∧
      orgValidationJoinSettleTime ⟨t1, .ok l⟩ ⟨t2, .ok s⟩ ⟨t3, .error e⟩ = t3) :=
  ⟨fun _ _ => ⟨rfl, rfl⟩, fun _ _ => ⟨rfl, rfl⟩, fun _ _ => ⟨rfl, rfl⟩⟩

/-- Witness for the amended C2 theorem: the legal worker fails at time 1
while the siblings would complete at times 5 and 9. -/
theorem C2_amended_failfast_join_witness :
    orgValidationJoin "acme.com" ⟨1, .error (.fatal "legal worker failed")⟩
        ⟨5, .ok none⟩ ⟨9, .ok none⟩ = .error (.fatal "legal worker failed") ∧
    orgValidationJoinSettleTime ⟨1, .error (.fatal "legal worker failed")⟩
        ⟨5, .ok none⟩ ⟨9, .ok none⟩ = 1 :=
  (C2_amended_failfast_join "acme.com" 1 5 9 (.fatal "legal worker failed")
    none none none).1 (by norm_num) (by norm_num)

/-- C4 counterexample: two executions of the teacher workflow body that
observe identical step results but run at ambient clock readings 0 and 1
generate different approval-hook tokens and different body traces, because
the body reads Date.now into the verification id the token embeds. -/
theorem C4_counterexample_clock_in_token :
    teacherApprovalToken "msr-1" 0 ≠ teacherApprovalToken "msr-1" 1 ∧
    teacherBodyTrace c9Input 0 c9Identifier c9Registry ≠
      teacherBodyTrace c9Input 1 c9Identifier c9Registry := by
  constructor <;> decide

/-- C4 amended: the workflow bodies read ambient values - the teacher body
the clock into its verification id, the contract body a Math.random draw
into its contract id - so determinism holds only relative to those reads:
two executions observing the same step results and the same ambient values
produce the same trace.  Within one execution every approval-hook token is
generated before the corresponding notification step fires and the
notification step receives exactly that token as its recorded input, so the
token is unchanged across retries of the notification: in the teacher body
for the approval hook, and in the contract body for the clause-validation,
manager-review and legal-approval hooks on every path that reaches them. -/
theorem C4_amended_token_stability (input : TeacherInput) (now : ℕ)
    (identifier : Identifier) (registry : RegistryRecord)
    (cinput : ContractInput) (randomSuffix : String)
    (policyAllowed needsApproval : Bool)
    (clauseDecision managerDecision legalDecision : ApprovalDecision) :
    (teacherBodyTrace input now identifier registry).get? 3 =
      some (.hookCreate (teacherApprovalToken input.msrId now)) ∧
    (teacherBodyTrace input now identifier registry).get? 4 =
      some (.stepSendApproval (teacherApprovalToken input.msrId now)
        ("msr-" ++ input.msrId ++ "@example.com")) ∧
    (∀ (input₂ : TeacherInput) (now₂ : ℕ) (identifier₂ : Identifier)
        (registry₂ : RegistryRecord),
      input = input₂ → now = now₂ → identifier = identifier₂ → registry = registry₂ →
      teacherBodyTrace input now identifier registry =
        teacherBodyTrace input₂ now₂ identifier₂ registry₂) ∧
    (policyAllowed = true → needsApproval = true →
      seqContains
        [CBodyEvent.hookCreate (clauseApprovalToken (contractIdOf cinput randomSuffix)),
         CBodyEvent.stepSendApproval (clauseApprovalToken (contractIdOf cinput randomSuffix))
           "legal@newfront.com" "clause-validation"]
        (contractBodyTrace cinput randomSuffix policyAllowed needsApproval
          clauseDecision managerDecision legalDecision) = true) ∧
    (policyAllowed = true → cinput.requesterRole = "requester" →
      (needsApproval = true → clauseDecision.approved = true) →
      seqContains
        [CBodyEvent.hookCreate (managerReviewToken (contractIdOf cinput randomSuffix)),
         CBodyEvent.stepSendApproval (managerReviewToken (contractIdOf cinput randomSuffix))
           "contract-manager@newfront.com" "contract_manager"]
        (contractBodyTrace cinput randomSuffix policyAllowed needsApproval
          clauseDecision managerDecision legalDecision) = true) ∧
    (policyAllowed = true →
      (needsApproval = true → clauseDecision.approved = true) →
      (cinput.requesterRole = "requester" → managerDecision.approved = true) →
      seqContains
        [CBodyEvent.hookCreate (legalApprovalToken (contractIdOf cinput randomSuffix)),
         CBodyEvent.stepSendApproval (legalApprovalToken (contractIdOf cinput randomSuffix))
           "legal@newfront.com" "legal"]
        (contractBodyTrace cinput randomSuffix policyAllowed needsApproval
          clauseDecision managerDecision legalDecision) = true) ∧
    (∀ (cinput₂ : ContractInput) (randomSuffix₂ : String)
        (policyAllowed₂ needsApproval₂ : Bool)
        (clauseDecision₂ managerDecision₂ legalDecision₂ : ApprovalDecision),
      cinput = cinput₂ → randomSuffix = randomSuffix₂ →
      policyAllowed = policyAllowed₂ → needsApproval = needsApproval₂ →
      clauseDecision = clauseDecision₂ → managerDecision = managerDecision₂ →
      legalDecision = legalDecision₂ →
      contractBodyTrace cinput randomSuffix policyAllowed needsApproval
          clauseDecision managerDecision legalDecision =
        contractBodyTrace cinput₂ randomSuffix₂ policyAllowed₂ needsApproval₂
          clauseDecision₂ managerDecision₂ legalDecision₂) := by
  refine ⟨rfl, rfl, ?_, ?_, ?_, ?_, ?_⟩
  · intro i2 n2 id2 r2 h1 h2 h3 h4
    rw [h1, h2, h3, h4]
  · intro hP hN
    subst hP
    subst hN
    simp [contractBodyTrace, seqContains, seqStartsWith]
  · intro hP hRole hClause
    subst hP
    cases hN : needsApproval with
    | false =>
      simp [contractBodyTrace, hRole, seqContains, seqStartsWith]
    | true =>
      have hCA := hClause hN
      simp [contractBodyTrace, hRole, hCA, seqContains, seqStartsWith]
  · intro hP hClause hMgr
    subst hP
    cases hRole : decide (cinput.requesterRole = "requester") with
    | false =>
      have hr : ¬cinput.requesterRole = "requester" := of_decide_eq_false hRole
      cases hN : needsApproval with
      | false => simp [contractBodyTrace, hr, seqContains, seqStartsWith]
      | true =>
        have hCA := hClause hN
        simp [contractBodyTrace, hr, hCA, seqContains, seqStartsWith]
    | true =>
      have hr : cinput.requesterRole = "requester" := of_decide_eq_true hRole
      have hMA := hMgr hr
      cases hN : needsApproval with
      | false => simp [contractBodyTrace, hr, hMA, seqContains, seqStartsWith]
      | true =>
        have hCA := hClause hN
        simp [contractBodyTrace, hr, hMA, hCA, seqContains, seqStartsWith]
  · intro c2 r2 p2 n2 cd2 md2 ld2 h1 h2 h3 h4 h5 h6 h7
    rw [h1, h2, h3, h4, h5, h6, h7]

/-- Witness for the amended C4 theorem: the teacher half at the scenario
input with clock reading 0, and the contract half at a requester-initiated
contract with a concrete random suffix, clause approval needed and every
decision positive, exercising all three contract hook-notification pairs. -/
theorem C4_amended_token_stability_witness :
    (teacherBodyTrace c9Input 0 c9Identifier c9Registry).get? 3 =
      some (.hookCreate (teacherApprovalToken c9Input.msrId 0)) ∧
    seqContains
      [CBodyEvent.hookCreate (clauseApprovalToken (contractIdOf c4ContractInput "ab12cde")),
       CBodyEvent.stepSendApproval (clauseApprovalToken (contractIdOf c4ContractInput "ab12cde"))
         "legal@newfront.com" "clause-validation"]
      (contractBodyTrace c4ContractInput "ab12cde" true true
        { approved := true, comment := none } { approved := true, comment := none }
        { approved := true, comment := none }) = true ∧
    seqContains
      [CBodyEvent.hookCreate (managerReviewToken (contractIdOf c4ContractInput "ab12cde")),
       CBodyEvent.stepSendApproval (managerReviewToken (contractIdOf c4ContractInput "ab12cde"))
         "contract-manager@newfront.com" "contract_manager"]
      (contractBodyTrace c4ContractInput "ab12cde" true true
        { approved := true, comment := none } { approved := true, comment := none }
        { approved := true, comment := none }) = true ∧
    seqContains
      [CBodyEvent.hookCreate (legalApprovalToken (contractIdOf c4ContractInput "ab12cde")),
       CBodyEvent.stepSendApproval (legalApprovalToken (contractIdOf c4ContractInput "ab12cde"))
         "legal@newfront.com" "legal"]
      (contractBodyTrace c4ContractInput "ab12cde" true true
        { approved := true, comment := none } { approved := true, comment := none }
        { approved := true, comment := none }) = true :=
  ⟨(C4_amended_token_stability c9Input 0 c9Identifier c9Registry c4ContractInput
      "ab12cde" true true { approved := true, comment := none }
      { approved := true, comment := none } { approved := true, comment := none }).1,
   (C4_amended_token_stability c9Input 0 c9Identifier c9Registry c4ContractInput
      "ab12cde" true true { approved := true, comment := none }
      { approved := true, comment := none } { approved := true, comment := none }).2.2.2.1
     rfl rfl,
   (C4_amended_token_stability c9Input 0 c9Identifier c9Registry c4ContractInput
      "ab12cde" true true { approved := true, comment := none }
      { approved := true, comment := none } { approved := true, comment := none }).2.2.2.2.1
     rfl (by decide) (fun _ => rfl),
   (C4_amended_token_stability c9Input 0 c9Identifier c9Registry c4ContractInput
      "ab12cde" true true { approved := true, comment := none }
      { approved := true, comment := none } { approved := true, comment := none }).2.2.2.2.2.1
     rfl (fun _ => rfl) (fun _ => rfl)⟩

/-- Reduction of the race when the timeout branch wins: the awaited value
is the sleep branch value. -/
theorem raceHookTimeout_of_timeoutWins {α : Type} (hook : Option (ℕ × α))
    (d : ℕ) (v : α) (hw : timeoutWins hook d = true) :
    raceHookTimeout hook d v = v := by
  cases hook with
  | none => rfl
  | some p =>
    obtain ⟨t, x⟩ := p
    simp only [timeoutWins, decide_eq_true_eq] at hw
    simp only [raceHookTimeout]
    rw [if_neg (by omega)]

/-- C5 counterexample: at the clause-validation hook-wait of the contract
management workflow, when the timeout branch wins the awaited value is the
explicit negative decision, but the workflow then raises a FatalError and
fails the run instead of returning a normal result recording the decision. -/
theorem C5_counterexample_clause_gate_fatal :
    raceHookTimeout (α := ApprovalDecision) none twoHoursMs clauseTimeoutDecision =
      clauseTimeoutDecision ∧
    clauseValidationGate "contract:u1:ab12c" none =
      .error (.fatal ("Clause validation not approved for contractId: " ++
        "contract:u1:ab12c. Comment: Clause validation approval timeout")) ∧
    exceptIsOk (clauseValidationGate "contract:u1:ab12c" none) = false :=
  ⟨rfl, rfl, rfl⟩

/-- C5 amended: every hook-wait races the hook against a sleep of its
configured timeout and a winning timeout yields the explicit negative
decision with a timeout comment; the teacher approval, manager review and
legal approval waits then return a normal result recording that decision,
while the clause-validation wait raises a FatalError that fails the run. -/
theorem C5_amended_timeout_races (hookRes : Option (ℕ × ApprovalDecision))
    (verificationId state contractId draft : String) (identifier : Identifier)
    (validation : Validation)
    (h1 : timeoutWins hookRes hourMs = true)
    (h2 : timeoutWins hookRes twoHoursMs = true) :
    raceHookTimeout hookRes hourMs teacherTimeoutDecision = teacherTimeoutDecision ∧
    (teacherApprovalGate verificationId identifier state validation hookRes).approved
        = false ∧
    (teacherApprovalGate verificationId identifier state validation hookRes).error
        = some "Verification not approved by MSR" ∧
    (teacherApprovalGate verificationId identifier state validation hookRes).approval
        = some teacherTimeoutDecision ∧
    managerReviewGate contractId draft hookRes =
      some { contractId := contractId, draft := draft
             error := some "Manager review not approved"
             managerReview := some managerTimeoutDecision, legalApproval := none } ∧
    legalApprovalGate contractId draft hookRes =
      some { contractId := contractId, draft := draft
             error := some "Legal approval denied or timeout"
             managerReview := none, legalApproval := some legalTimeoutDecision } ∧
    clauseValidationGate contractId hookRes =
      .error (.fatal ("Clause validation not approved for contractId: " ++ contractId ++
        ". Comment: " ++ "Clause validation approval timeout")) := by
  have hr1 := raceHookTimeout_of_timeoutWins hookRes hourMs teacherTimeoutDecision h1
  have hr1m := raceHookTimeout_of_timeoutWins hookRes hourMs managerTimeoutDecision h1
  have hr2l := raceHookTimeout_of_timeoutWins hookRes twoHoursMs legalTimeoutDecision h2
  have hr2c := raceHookTimeout_of_timeoutWins hookRes twoHoursMs clauseTimeoutDecision h2
  refine ⟨hr1, ?_, ?_, ?_, ?_, ?_, ?_⟩
  · simp only [teacherApprovalGate]
    rw [hr1]
    rfl
  · simp only [teacherApprovalGate]
    rw [hr1]
    rfl
  · simp only [teacherApprovalGate]
    rw [hr1]
    rfl
  · simp only [managerReviewGate]
    rw [hr1m]
    rfl
  · simp only [legalApprovalGate]
    rw [hr2l]
    rfl
  · simp only [clauseValidationGate]
    rw [hr2c]
    rfl

/-- Witness for the amended C5 theorem: a hook that never resolves, so the
timeout branch wins every race. -/
theorem C5_amended_timeout_races_witness :
    (teacherApprovalGate "v-1" c9Identifier "CA" c9Validation none).approved = false ∧
    clauseValidationGate "contract:u1:w" none =
      .error (.fatal ("Clause validation not approved for contractId: " ++
        "contract:u1:w" ++ ". Comment: " ++ "Clause validation approval timeout")) :=
  ⟨(C5_amended_timeout_races none "v-1" "CA" "contract:u1:w" "d" c9Identifier
      c9Validation rfl rfl).2.1,
   (C5_amended_timeout_races none "v-1" "CA" "contract:u1:w" "d" c9Identifier
      c9Validation rfl rfl).2.2.2.2.2.2⟩

/-- C9: end-to-end teacher-verification scenario with state CA, MSR msr-1
and member id 12345: the copy step passes the identifier through, the
registry lookup finds an actively employed record, validation verifies with
defaulted name and date-of-birth matches, the approval hook is created
before the notification step, and a negative resume yields a final result
with verified true, approved false and the MSR rejection error. -/
theorem C9_scenario_end_to_end :
    copyMemberIdentifier c9Input.memberId c9Input.memberName c9Input.dateOfBirth =
      .ok c9Identifier ∧
    c9Registry.found = true ∧
    c9Registry.employmentStatus = "active" ∧
    c9Validation.verified = true ∧
    c9Validation.registryMatch.nameMatch = true ∧
    c9Validation.registryMatch.dobMatch = true ∧
    (teacherBodyTrace c9Input 0 c9Identifier c9Registry).get? 3 =
      some (.hookCreate (teacherApprovalToken "msr-1" 0)) ∧
    c9Result.verified = true ∧
    c9Result.approved = false ∧
    c9Result.error = some "Verification not approved by MSR" ∧
    c9Result.approval = some c9Decision :=
  ⟨rfl, by decide, by decide, by decide, by decide, by decide, by decide,
   by decide, by decide, by decide, by decide⟩

/-- C6: the approve endpoint looks the hook up under the normalized token -
percent-decoded with raw fallback, trailing quote and comma runs stripped,
whitespace trimmed - for every raw token; in particular the encoded-junk
token abc123%22 and the clean token abc123 resolve to the same key. -/
theorem C6_token_normalization (resume : String → Option String) (raw : String)
    (b : Bool) :
    (teacherApprovePOST resume
        { token := some (.jstr raw), approved := some (.jbool b) }).2 =
      some (normalizeToken raw) ∧
    normalizeToken "abc123%22" = "abc123" ∧
    normalizeToken "abc123" = "abc123" := by
  refine ⟨?_, by decide, by decide⟩
  simp only [teacherApprovePOST]
  cases h : resume (normalizeToken raw) <;> simp [h]

/-- C7: the approve endpoint answers 400 when the token is not a string or
approved is not a boolean, 404 with ok false when the hook lookup yields
nothing, and ok true with the runId otherwise; a not-found resume is thus
answered 404, never 500. -/
theorem C7_approve_status_codes (resume : String → Option String)
    (raw rid : String) (b : Bool) :
    (∀ tok app : Option JVal, jIsStr tok = false ∨ jIsBool app = false →
      (teacherApprovePOST resume { token := tok, approved := app }).1 =
        { status := 400, okField := none, runId := none, errorLabel := none }) ∧
    (resume (normalizeToken raw) = none →
      (teacherApprovePOST resume
          { token := some (.jstr raw), approved := some (.jbool b) }).1 =
        { status := 404, okField := some false, runId := none
          errorLabel := some "Hook not found" }) ∧
    (resume (normalizeToken raw) = some rid →
      (teacherApprovePOST resume
          { token := some (.jstr raw), approved := some (.jbool b) }).1 =
        { status := 200, okField := some true, runId := some rid
          errorLabel := none }) := by
  refine ⟨?_, ?_, ?_⟩
  · intro tok app hba
    match tok, app with
    | none, _ => rfl
    | some (.jbool _), _ => rfl
    | some (.jnum _), _ => rfl
    | some .jnull, _ => rfl
    | some (.jstr _), none => rfl
    | some (.jstr _), some (.jstr _) => rfl
    | some (.jstr _), some (.jnum _) => rfl
    | some (.jstr _), some .jnull => rfl
    | some (.jstr _), some (.jbool _) => simp [jIsStr, jIsBool] at hba
  · intro h
    simp only [teacherApprovePOST]
    rw [h]
  · intro h
    simp only [teacherApprovePOST]
    rw [h]

/-- Witness for C7: a non-string token gets 400; with an empty hook store
the lookup misses and gets 404; with a hook store answering run-1 the
resume succeeds with ok true. -/
theorem C7_approve_status_codes_witness :
    (teacherApprovePOST (fun _ => none)
        { token := some (.jbool true), approved := some (.jbool true) }).1 =
      { status := 400, okField := none, runId := none, errorLabel := none } ∧
    (teacherApprovePOST (fun _ => none)
        { token := some (.jstr "tok-1"), approved := some (.jbool true) }).1 =
      { status := 404, okField := some false, runId := none
        errorLabel := some "Hook not found" } ∧
    (teacherApprovePOST (fun _ => some "run-1")
        { token := some (.jstr "tok-1"), approved := some (.jbool false) }).1 =
      { status := 200, okField := some true, runId := some "run-1"
        errorLabel := none } :=
  ⟨(C7_approve_status_codes (fun _ => none) "tok-1" "run-1" true).1
      (some (.jbool true)) (some (.jbool true)) (Or.inl rfl),
   (C7_approve_status_codes (fun _ => none) "tok-1" "run-1" true).2.1 rfl,
   (C7_approve_status_codes (fun _ => some "run-1") "tok-1" "run-1" false).2.2 rfl⟩

/-- C8: after normalization the contract approval endpoint routes by token
substring: tokens containing clause-validation-approval resume the
clause-validation hook, every other token resumes the contract approval
hook. -/
theorem C8_route_by_token_substring
    (resumeClause resumeContract : String → Option String) (raw : String) (b : Bool) :
    (strIncludes (normalizeToken raw) "clause-validation-approval" = true →
      (contractApprovePOST resumeClause resumeContract
          { token := some (.jstr raw), approved := some (.jbool b) }).2 =
        some (.clauseValidation, normalizeToken raw)) ∧
    (strIncludes (normalizeToken raw) "clause-validation-approval" = false →
      (contractApprovePOST resumeClause resumeContract
          { token := some (.jstr raw), approved := some (.jbool b) }).2 =
        some (.contractApproval, normalizeToken raw)) := by
  constructor
  · intro h
    simp only [contractApprovePOST]
    rw [if_pos h]
    cases hc : resumeClause (normalizeToken raw) <;> simp [hc]
  · intro h
    simp only [contractApprovePOST]
    rw [if_neg (by simp [h])]
    cases hc : resumeContract (normalizeToken raw) <;> simp [hc]

/-- Witness for C8: a clause-validation token routes to the
clause-validation hook and a legal-approval token routes to the contract
approval hook. -/
theorem C8_route_by_token_substring_witness :
    (contractApprovePOST (fun _ => some "run-9") (fun _ => some "run-9")
        { token := some (.jstr "contract:u1:ab12c:clause-validation-approval")
          approved := some (.jbool true) }).2 =
      some (.clauseValidation,
        normalizeToken "contract:u1:ab12c:clause-validation-approval") ∧
    (contractApprovePOST (fun _ => some "run-9") (fun _ => some "run-9")
        { token := some (.jstr "contract:u1:ab12c:legal-approval")
          approved := some (.jbool true) }).2 =
      some (.contractApproval, normalizeToken "contract:u1:ab12c:legal-approval") :=
  ⟨(C8_route_by_token_substring (fun _ => some "run-9") (fun _ => some "run-9")
      "contract:u1:ab12c:clause-validation-approval" true).1 (by decide),
   (C8_route_by_token_substring (fun _ => some "run-9") (fun _ => some "run-9")
      "contract:u1:ab12c:legal-approval" true).2 (by decide)⟩

/-- Every step the resumed run actually invokes lies past the committed
log: running against a checkpoint of length L from index idx only ever
invokes call sites at index idx + L or later. -/
theorem runFrom_invoked_lb {V α : Type} (exec : ℕ → String → V → V)
    (p : WProg V α) :
    ∀ idx log, ∀ i ∈ (runFrom exec idx log p).invoked, idx + log.length ≤ i := by
  induction p with
  | ret a =>
    intro idx log i hi
    simp [runFrom] at hi
  | step n inp k ih =>
    intro idx log i hi
    cases log with
    | nil =>
      simp only [runFrom, List.mem_cons] at hi
      rcases hi with h | h
      · subst h
        simp
      · have := ih (exec idx n inp) (idx + 1) [] i h
        simp only [List.length_nil] at this ⊢
        omega
    | cons r rest =>
      simp only [runFrom] at hi
      have := ih r (idx + 1) rest i hi
      simp only [List.length_cons]
      omega

/-- Replay agreement: resuming a run from a prefix of its own committed
checkpoint feeds exactly the committed results back during replay, whatever
executor the resumed process uses; and resuming with the original executor
reproduces the original value and full observation sequence. -/
theorem runFrom_resume_spec {V α : Type} (exec exec2 : ℕ → String → V → V)
    (p : WProg V α) :
    ∀ idx N,
      ((runFrom exec2 idx ((runFrom exec idx [] p).observed.take N) p).observed.take N
          = (runFrom exec idx [] p).observed.take N) ∧
      ((runFrom exec idx ((runFrom exec idx [] p).observed.take N) p).val
          = (runFrom exec idx [] p).val) ∧
      ((runFrom exec idx ((runFrom exec idx [] p).observed.take N) p).observed
          = (runFrom exec idx [] p).observed) := by
  induction p with
  | ret a =>
    intro idx N
    simp [runFrom]
  | step n inp k ih =>
    intro idx N
    cases N with
    | zero =>
      refine ⟨by simp, rfl, rfl⟩
    | succ m =>
      have hL : (runFrom exec idx [] (WProg.step n inp k)).observed
          = exec idx n inp :: (runFrom exec (idx + 1) [] (k (exec idx n inp))).observed := by
        simp only [runFrom]
      rw [hL, List.take_succ_cons]
      simp only [runFrom]
      have hi := ih (exec idx n inp) (idx + 1) m
      exact ⟨by rw [List.take_succ_cons, hi.1], hi.2.1, by rw [hi.2.2]⟩

/-- C1: resume-exactly-once for the modelled durable runtime: for every
workflow program, first-run executor and committed checkpoint of the first N
steps, the resumed run (even under a different executor, so a re-invocation
would be visible) observes the committed results verbatim during replay,
invokes no step call site below the checkpoint length - only steps after the
last checkpoint execute - and, continuing with the original executor,
completes with the original value and observation sequence. -/
theorem C1_resume_exactly_once {V α : Type} (exec exec2 : ℕ → String → V → V)
    (p : WProg V α) (N : ℕ) :
    ((runFrom exec2 0 ((runFrom exec 0 [] p).observed.take N) p).observed.take N
        = (runFrom exec 0 [] p).observed.take N) ∧
    (∀ i ∈ (runFrom exec2 0 ((runFrom exec 0 [] p).observed.take N) p).invoked,
        min N (runFrom exec 0 [] p).observed.length ≤ i) ∧
    ((runFrom exec 0 ((runFrom exec 0 [] p).observed.take N) p).val
        = (runFrom exec 0 [] p).val) ∧
    ((runFrom exec 0 ((runFrom exec 0 [] p).observed.take N) p).observed
        = (runFrom exec 0 [] p).observed) := by
  refine ⟨(runFrom_resume_spec exec exec2 p 0 N).1, ?_,
    (runFrom_resume_spec exec exec2 p 0 N).2.1,
    (runFrom_resume_spec exec exec2 p 0 N).2.2⟩
  intro i hi
  have := runFrom_invoked_lb exec2 p 0 ((runFrom exec 0 [] p).observed.take N) i hi
  simpa [List.length_take] using this

/-- Witness for C1 on the two-step program: committing the first step and
resuming under a changed executor replays the committed first result
verbatim, and the sole invoked call site is index 1, at the checkpoint
boundary. -/
theorem C1_resume_exactly_once_witness :
    ((runFrom c1Exec2 0 ((runFrom c1Exec 0 [] c1Prog).observed.take 1) c1Prog).observed.take 1
        = (runFrom c1Exec 0 [] c1Prog).observed.take 1) ∧
    min 1 (runFrom c1Exec 0 [] c1Prog).observed.length ≤ 1 ∧
    ((runFrom c1Exec 0 ((runFrom c1Exec 0 [] c1Prog).observed.take 1) c1Prog).val
        = (runFrom c1Exec 0 [] c1Prog).val) :=
  ⟨(C1_resume_exactly_once c1Exec c1Exec2 c1Prog 1).1,
   (C1_resume_exactly_once c1Exec c1Exec2 c1Prog 1).2.1 1 (by decide),
   (C1_resume_exactly_once c1Exec c1Exec2 c1Prog 1).2.2.1⟩

end Spec2Proof
